import Mathlib

/-!
Shallow embedding of the explorer-backend core checked here:

* storage/smesher.go : the smeshers collection (unique index on id), the
  coinbases collection (unique index on address), SaveSmesher (InsertOne),
  UpdateSmesher (InsertOne into coinbases, CountDocuments over activations,
  UpdateOne with a set modifier on smeshers), GetSmeshersCount (a count
  whose store error is logged and returned as 0).
* api/httpserver/rest/search.go : SearchHandler, the identifier resolver
  that switches on the literal length of the id (42, 66, other), probes
  the collections with count queries and answers with a redirect path or
  a 404 result.
* the collector main function : the goroutine that reruns the sync loop
  forever and sleeps 5 seconds after a run that returned an error.

Store documents keep only the fields the embedded code reads or writes;
the document store is a list per collection, and the unique indexes that
the storage setup creates are embedded in the insert semantics: an insert
whose key is already present fails with a duplicate key error and leaves
the collection unchanged.  Store operations that can fail transiently
(inserts, counts, updates) take explicit failure flags so that the error
paths the Go code contains are part of the model.  GetLastLayer and the
count helpers for collections other than smeshers are not in the sources;
they are modelled from the spec (the watermark read and the per-collection
count wrappers that return 0 on error, in the shape of GetSmeshersCount).
-/

namespace ExplorerBackend

/-- Account document, keyed by its 42 character address. -/
structure AccountDoc where
  address : String
deriving DecidableEq, Repr

/-- Block document, keyed by its id. -/
structure BlockDoc where
  id : String
deriving DecidableEq, Repr

/-- Transaction document, keyed by its 66 character hex id. -/
structure TxDoc where
  id : String
deriving DecidableEq, Repr

/-- Activation document: 66 character hex id plus the smesher reference
that UpdateSmesher counts over. -/
structure AtxDoc where
  id : String
  smesher : String
deriving DecidableEq, Repr

/-- Reward document, keyed by its store-assigned object identifier. -/
structure RewardDoc where
  oid : String
deriving DecidableEq, Repr

/-- Coinbase index document: address mapped to a smesher id, as written by
UpdateSmesher into the coinbases collection. -/
structure CoinbaseDoc where
  address : String
  smesher : String
deriving DecidableEq, Repr

/-- Smesher document with the fields SaveSmesher writes and UpdateSmesher
sets: id, name, lon, lat, cSize, coinbase, atxcount, timestamp. -/
structure Smesher where
  id : String
  name : String
  lon : Float
  lat : Float
  cSize : Nat
  coinbase : String
  atxcount : Nat
  timestamp : Nat
deriving Repr

/-- Network constants the handler reads; EpochNumLayers is the layers per
epoch constant used for the layer versus epoch classification. -/
structure NetworkInfo where
  epochNumLayers : Nat
deriving DecidableEq, Repr

/-- The document store: one list per collection, plus the watermark
(GetLastLayer, modelled from the spec) and the network constants. -/
structure Storage where
  accounts : List AccountDoc
  blocks : List BlockDoc
  transactions : List TxDoc
  activations : List AtxDoc
  smeshers : List Smesher
  coinbases : List CoinbaseDoc
  rewards : List RewardDoc
  lastLayer : Nat
  networkInfo : NetworkInfo
deriving Repr

/-- InsertOne into the coinbases collection.  The storage setup creates a
unique index on address, so inserting an address that is already present
fails with a duplicate key error and changes nothing. -/
def insertCoinbaseDoc (cs : List CoinbaseDoc) (address smesher : String) :
    Except String (List CoinbaseDoc) :=
  if cs.any (fun c => c.address == address) then .error "duplicate key error"
  else .ok (cs ++ [⟨address, smesher⟩])

/-- InsertOne into the smeshers collection.  The storage setup creates a
unique index on id, so inserting an id that is already present fails with
a duplicate key error and changes nothing. -/
def insertSmesherDoc (ss : List Smesher) (doc : Smesher) :
    Except String (List Smesher) :=
  if ss.any (fun d => d.id == doc.id) then .error "duplicate key error"
  else .ok (ss ++ [doc])

/-- UpdateOne on the smeshers collection with a set modifier for cSize,
coinbase, atxcount and timestamp: the first document matching the id is
rewritten; with no match nothing happens and the call still succeeds. -/
def updateOneSmesher (ss : List Smesher) (id : String) (space : Nat)
    (coinbase : String) (atxcount : Nat) (timestamp : Nat) : List Smesher :=
  match ss with
  | [] => []
  | d :: ds =>
    if d.id == id then
      { d with cSize := space, coinbase := coinbase,
               atxcount := atxcount, timestamp := timestamp } :: ds
    else d :: updateOneSmesher ds id space coinbase atxcount timestamp

/-- CountDocuments over the activations collection with a smesher query,
as issued inside UpdateSmesher. -/
def countActivationsFor (st : Storage) (smesher : String) : Nat :=
  (st.activations.filter (fun a => a.smesher == smesher)).length

/-- SaveSmesher: a plain InsertOne of the document built from the input
record; a failure is wrapped with the save error text and the store is
left unchanged. -/
def saveSmesher (st : Storage) (m : Smesher) : Except String Unit × Storage :=
  match insertSmesherDoc st.smeshers m with
  | .error e => (.error ("error save smesher: " ++ e), st)
  | .ok ss => (.ok (), { st with smeshers := ss })

/-- Failure flags for the three store calls inside UpdateSmesher, so the
error paths of the Go code are expressible: a transient insert failure, a
failing activations count, a failing smeshers update. -/
structure UpdateFail where
  failInsertCoinbase : Bool
  failCountActivations : Bool
  failUpdateSmesher : Bool
deriving DecidableEq, Repr

/-- The failure-free schedule for UpdateSmesher. -/
def noUpdateFail : UpdateFail := ⟨false, false, false⟩

/-- UpdateSmesher: first InsertOne into coinbases (returning the wrapped
error on failure, with nothing else done); then CountDocuments over the
activations for this smesher, whose error is only logged and whose result
is 0 in that case; then UpdateOne on smeshers setting cSize, coinbase,
atxcount and timestamp, whose error is logged and returned. -/
def updateSmesher (st : Storage) (f : UpdateFail) (smesher coinbase : String)
    (space : Nat) (timestamp : Nat) : Except String Unit × Storage :=
  if f.failInsertCoinbase then
    (.error "error insert smesher into coinbases: insert error", st)
  else
    match insertCoinbaseDoc st.coinbases coinbase smesher with
    | .error e => (.error ("error insert smesher into coinbases: " ++ e), st)
    | .ok cs =>
      if f.failUpdateSmesher then
        (.error "smeshers update error", { st with coinbases := cs })
      else
        (.ok (), { st with
          coinbases := cs,
          smeshers := updateOneSmesher st.smeshers smesher space coinbase
            (if f.failCountActivations then 0 else countActivationsFor st smesher)
            timestamp })

/-- Digit run of a decimal literal: all characters must be digits and the
run must be nonempty, else no value. -/
def digitsToNat (cs : List Char) : Option Nat :=
  if cs.isEmpty then none
  else if cs.all Char.isDigit then
    some (cs.foldl (fun acc c => acc * 10 + (c.toNat - 48)) 0)
  else none

/-- Largest value of a 64 bit signed integer, the range strconv.Atoi
checks on a 64 bit platform. -/
def int64Max : Nat := 9223372036854775807

/-- strconv.Atoi: an optional sign followed by decimal digits, the whole
string, with the 64 bit signed range check; anything else is an error. -/
def atoi (s : String) : Option Int :=
  match s.data with
  | '+' :: rest =>
    (digitsToNat rest).bind fun n =>
      if n ≤ int64Max then some (Int.ofNat n) else none
  | '-' :: rest =>
    (digitsToNat rest).bind fun n =>
      if n ≤ int64Max + 1 then some (-(Int.ofNat n)) else none
  | cs =>
    (digitsToNat cs).bind fun n =>
      if n ≤ int64Max then some (Int.ofNat n) else none

/-- Hex digit test for the object identifier parse. -/
def isHexChar (c : Char) : Bool :=
  c.isDigit || ('a' ≤ c && c ≤ 'f') || ('A' ≤ c && c ≤ 'F')

/-- ObjectIDFromHex: exactly 24 hex characters decode to an object id;
decoding is case insensitive, so the id is kept in lower case. -/
def objectIDFromHex (s : String) : Option String :=
  if s.length = 24 && s.data.all isHexChar then
    some (String.mk (s.data.map Char.toLower))
  else none

/-- Conversion of a Go int to uint32: the value modulo 2 to the 32. -/
def uint32Of (id : Int) : Nat := (id % 4294967296).toNat

/-- GetAccountsCount for an address query.  Modelled from the spec: the
per-collection count wrappers are thin helpers that, like GetSmeshersCount
in the sources, log a store error and return 0. -/
def getAccountsCount (st : Storage) (fail : Bool) (address : String) : Nat :=
  if fail then 0 else (st.accounts.filter (fun a => a.address == address)).length

/-- GetBlocksCount for an id query.  Modelled from the spec, in the shape
of GetSmeshersCount: a store error is logged and the result is 0. -/
def getBlocksCount (st : Storage) (fail : Bool) (id : String) : Nat :=
  if fail then 0 else (st.blocks.filter (fun b => b.id == id)).length

/-- GetTransactionsCount for an id query.  Modelled from the spec, in the
shape of GetSmeshersCount: a store error is logged and the result is 0. -/
def getTransactionsCount (st : Storage) (fail : Bool) (id : String) : Nat :=
  if fail then 0 else (st.transactions.filter (fun t => t.id == id)).length

/-- GetActivationsCount for an id query.  Modelled from the spec, in the
shape of GetSmeshersCount: a store error is logged and the result is 0. -/
def getActivationsCount (st : Storage) (fail : Bool) (id : String) : Nat :=
  if fail then 0 else (st.activations.filter (fun a => a.id == id)).length

/-- GetSmeshersCount, from storage/smesher.go: CountDocuments on the
smeshers collection; on a store error the error is logged and the
function returns 0. -/
def getSmeshersCount (st : Storage) (fail : Bool) (id : String) : Nat :=
  if fail then 0 else (st.smeshers.filter (fun d => d.id == id)).length

/-- GetRewardsCount for an object id query.  Modelled from the spec, in
the shape of GetSmeshersCount: a store error is logged and the result
is 0. -/
def getRewardsCount (st : Storage) (fail : Bool) (oid : String) : Nat :=
  if fail then 0 else (st.rewards.filter (fun r => r.oid == oid)).length

/-- GetLastLayer.  Modelled from the spec: the watermark, the highest
layer fully synced, read from the store. -/
def getLastLayer (st : Storage) : Nat := st.lastLayer

/-- Failure flags for the count probes the search handler issues, one per
collection it can probe. -/
structure SearchFail where
  accounts : Bool
  blocks : Bool
  transactions : Bool
  activations : Bool
  smeshers : Bool
  rewards : Bool
deriving DecidableEq, Repr

/-- The failure-free schedule for the search handler probes. -/
def noSearchFail : SearchFail := ⟨false, false, false, false, false, false⟩

/-- Outcome of the search handler: a 200 response carrying a redirect
path, or the 404 not found result. -/
inductive SearchResult where
  | redirect (path : String)
  | notFound
deriving DecidableEq, Repr

/-- Store operations the embedded code can issue, reads and writes, used
to record the trace of store accesses a handler run performs. -/
inductive StoreOp where
  | countAccounts (address : String)
  | countBlocks (id : String)
  | countTransactions (id : String)
  | countActivations (id : String)
  | countSmeshers (id : String)
  | countRewards (oid : String)
  | getLastLayer
  | insertCoinbase (address smesher : String)
  | insertSmesher (doc : Smesher)
  | updateSmesherSet (id : String) (cSize : Nat) (coinbase : String)
      (atxcount : Nat) (timestamp : Nat)
deriving Repr

/-- Read-only store operations: the count probes and the watermark read. -/
def StoreOp.isRead : StoreOp → Bool
  | .countAccounts _ => true
  | .countBlocks _ => true
  | .countTransactions _ => true
  | .countActivations _ => true
  | .countSmeshers _ => true
  | .countRewards _ => true
  | .getLastLayer => true
  | .insertCoinbase _ _ => false
  | .insertSmesher _ => false
  | .updateSmesherSet _ _ _ _ _ => false

/-- Effect of a store operation on the store state: reads change nothing,
the writes behave as the insert and update helpers of the storage layer. -/
def effect (st : Storage) : StoreOp → Storage
  | .insertCoinbase a m =>
    match insertCoinbaseDoc st.coinbases a m with
    | .ok cs => { st with coinbases := cs }
    | .error _ => st
  | .insertSmesher d =>
    match insertSmesherDoc st.smeshers d with
    | .ok ss => { st with smeshers := ss }
    | .error _ => st
  | .updateSmesherSet id space cb ac ts =>
    { st with smeshers := updateOneSmesher st.smeshers id space cb ac ts }
  | _ => st

/-- Numeric tail of the default case of SearchHandler: Atoi, and on
success the comparison of uint32(id) against the epoch and the watermark;
the redirect paths echo the parsed int.  The list argument carries the
store operations already performed in the default case. -/
def searchNumeric (st : Storage) (idStr : String) (opsBefore : List StoreOp) :
    SearchResult × List StoreOp :=
  match atoi idStr with
  | none => (.notFound, opsBefore)
  | some id =>
    if uint32Of id > getLastLayer st / st.networkInfo.epochNumLayers then
      if uint32Of id ≤ getLastLayer st then
        (.redirect ("/layers/" ++ toString id), opsBefore ++ [StoreOp.getLastLayer])
      else
        (.notFound, opsBefore ++ [StoreOp.getLastLayer])
    else
      (.redirect ("/epochs/" ++ toString id), opsBefore ++ [StoreOp.getLastLayer])

/-- SearchHandler from api/httpserver/rest/search.go: switch on the id
length; 42 probes accounts then blocks; 66 probes transactions then
activations then smeshers; otherwise try the object id parse with a
rewards probe and fall through to the numeric classification.  The second
component records the store operations performed, in order. -/
def searchHandler (st : Storage) (f : SearchFail) (idStr : String) :
    SearchResult × List StoreOp :=
  if idStr.length = 42 then
    if 0 < getAccountsCount st f.accounts idStr then
      (.redirect ("/address/" ++ idStr), [.countAccounts idStr])
    else if 0 < getBlocksCount st f.blocks idStr then
      (.redirect ("/blocks/" ++ idStr), [.countAccounts idStr, .countBlocks idStr])
    else
      (.notFound, [.countAccounts idStr, .countBlocks idStr])
  else if idStr.length = 66 then
    if 0 < getTransactionsCount st f.transactions idStr then
      (.redirect ("/txs/" ++ idStr), [.countTransactions idStr])
    else if 0 < getActivationsCount st f.activations idStr then
      (.redirect ("/atxs/" ++ idStr),
        [.countTransactions idStr, .countActivations idStr])
    else if 0 < getSmeshersCount st f.smeshers idStr then
      (.redirect ("/smeshers/" ++ idStr),
        [.countTransactions idStr, .countActivations idStr, .countSmeshers idStr])
    else
      (.notFound,
        [.countTransactions idStr, .countActivations idStr, .countSmeshers idStr])
  else
    match objectIDFromHex idStr with
    | some oid =>
      if 0 < getRewardsCount st f.rewards oid then
        (.redirect ("/rewards/" ++ idStr), [.countRewards oid])
      else
        searchNumeric st idStr [.countRewards oid]
    | none => searchNumeric st idStr []

/-- Events of the collector supervision goroutine: a run of the sync
loop, the printing of a returned error, a sleep in seconds. -/
inductive SupEvent where
  | run (iteration : Nat)
  | printErr (msg : String)
  | sleepSeconds (n : Nat)
deriving DecidableEq, Repr

/-- Test for a run event. -/
def SupEvent.isRun : SupEvent → Bool
  | .run _ => true
  | _ => false

/-- The fixed backoff of the collector restart loop: 5 seconds. -/
def collectorBackoffSeconds : Nat := 5

/-- One iteration of the restart loop: run the sync loop; when it returns
an error, print it and sleep the fixed backoff; then loop again. -/
def runStep (errs : Nat → Option String) (i : Nat) : List SupEvent :=
  match errs i with
  | some e => [.run i, .printErr e, .sleepSeconds collectorBackoffSeconds]
  | none => [.run i]

/-- Event trace of the first n iterations of the restart loop of the
collector main function, for an arbitrary sequence of run outcomes. -/
def supervisorTrace (errs : Nat → Option String) : Nat → List SupEvent
  | 0 => []
  | n + 1 => supervisorTrace errs n ++ runStep errs n

/-- An outcome sequence in which every run returns an error. -/
def constErrs : Nat → Option String := fun _ => some "node error"

/-- A store with nothing in it and a trivial network constant. -/
def emptyStorage : Storage :=
  { accounts := [], blocks := [], transactions := [], activations := [],
    smeshers := [], coinbases := [], rewards := [], lastLayer := 0,
    networkInfo := ⟨1⟩ }

/-- A smesher record used to exercise SaveSmesher. -/
def sm0 : Smesher := ⟨"s0", "n", 0.0, 0.0, 0, "c", 0, 0⟩

/-- A smesher record whose coinbase is still the old address. -/
def smOld : Smesher := ⟨"s1", "", 0.0, 0.0, 0, "old", 0, 0⟩

/-- Store holding one smesher with the old coinbase and no coinbase index
entries. -/
def stC1 : Storage := { emptyStorage with smeshers := [smOld] }

/-- One activation referencing smesher s1. -/
def actA1 : AtxDoc := ⟨"a1", "s1"⟩

/-- Store holding smesher s1 and one activation referencing it. -/
def stC3 : Storage := { emptyStorage with smeshers := [smOld], activations := [actA1] }

/-- Store with watermark 100 and 10 layers per epoch, the state of the
resolver classification examples. -/
def st100 : Storage := { emptyStorage with lastLayer := 100, networkInfo := ⟨10⟩ }

/-- A 42 character address literal. -/
def addr42 : String := String.mk (List.replicate 42 'a')

/-- A 66 character hash literal. -/
def hash66 : String := String.mk (List.replicate 66 'b')

/-- Store holding the account with address addr42 and the transaction
with id hash66, over the watermark state of st100. -/
def stC5 : Storage :=
  { st100 with accounts := [⟨addr42⟩], transactions := [⟨hash66⟩] }

/-- A 24 character lower case hex object id literal. -/
def oid24 : String := "0123456789abcdef01234567"

/-- Store holding one reward with object id oid24. -/
def stReward : Storage := { st100 with rewards := [⟨oid24⟩] }

/-- A 66 character hash literal distinct from hash66. -/
def hash66c : String := String.mk (List.replicate 66 'c')

/-- A smesher record whose id is the 66 character hash hash66c. -/
def smC : Smesher := ⟨hash66c, "", 0.0, 0.0, 0, "", 0, 0⟩

/-- Store holding only the smesher with id hash66c. -/
def stC7 : Storage := { st100 with smeshers := [smC] }

/-- Probe failure schedule in which only the smeshers probe fails. -/
def smesherProbeFail : SearchFail := ⟨false, false, false, false, true, false⟩

/-- Two redirect paths with distinct eight character leading segments are
distinct strings, whatever is echoed after them. -/
theorem layersPath_ne_epochsPath (s t : String) :
    ("/layers/" ++ s) ≠ ("/epochs/" ++ t) := by
  intro h
  have hd : "/layers/".data ++ s.data = "/epochs/".data ++ t.data :=
    congrArg String.data h
  have h1 : ("/layers/".data ++ s.data)[1]? = ("/epochs/".data ++ t.data)[1]? := by
    rw [hd]
  rw [List.getElem?_append_left (by decide), List.getElem?_append_left (by decide)] at h1
  exact absurd h1 (by decide)

/-- A read-only store operation leaves the store unchanged. -/
theorem effect_isRead (st : Storage) (op : StoreOp) (h : op.isRead = true) :
    effect st op = st := by
  cases op <;> first | rfl | simp [StoreOp.isRead] at h

/-- Folding the effect of a list of read-only store operations leaves the
store unchanged. -/
theorem foldl_effect_of_reads (ops : List StoreOp) :
    ∀ st : Storage, ops.all StoreOp.isRead = true → ops.foldl effect st = st := by
  induction ops with
  | nil => intro st _; rfl
  | cons o os ih =>
    intro st h
    rw [List.all_cons, Bool.and_eq_true] at h
    rw [List.foldl_cons, effect_isRead st o h.1]
    exact ih st h.2

/-- With a length that is neither 42 nor 66 and a failing object id
parse, the handler runs the numeric tail with an empty trace so far. -/
theorem searchHandler_default (st : Storage) (f : SearchFail) (idStr : String)
    (h42 : idStr.length ≠ 42) (h66 : idStr.length ≠ 66)
    (hobj : objectIDFromHex idStr = none) :
    searchHandler st f idStr = searchNumeric st idStr [] := by
  simp [searchHandler, h42, h66, hobj]

/-- The numeric tail on a successfully parsed id is the uint32 comparison
against the epoch and the watermark. -/
theorem searchNumeric_parsed (st : Storage) (idStr : String) (ops : List StoreOp)
    (id : Int) (h : atoi idStr = some id) :
    searchNumeric st idStr ops =
      if uint32Of id > st.lastLayer / st.networkInfo.epochNumLayers then
        if uint32Of id ≤ st.lastLayer then
          (.redirect ("/layers/" ++ toString id), ops ++ [StoreOp.getLastLayer])
        else (.notFound, ops ++ [StoreOp.getLastLayer])
      else (.redirect ("/epochs/" ++ toString id), ops ++ [StoreOp.getLastLayer]) := by
  simp [searchNumeric, h, getLastLayer]

/-- Classification of a parsed decimal id in the default case: each of
the three outcomes holds exactly when the uint32 image of the parsed
value stands in the corresponding relation to the epoch and watermark. -/
theorem numericTrichotomy (st : Storage) (idStr : String) (id : Int)
    (h42 : idStr.length ≠ 42) (h66 : idStr.length ≠ 66)
    (hobj : objectIDFromHex idStr = none) (hatoi : atoi idStr = some id) :
    (((searchHandler st noSearchFail idStr).1 = .redirect ("/layers/" ++ toString id)) ↔
      (st.lastLayer / st.networkInfo.epochNumLayers < uint32Of id ∧
       uint32Of id ≤ st.lastLayer)) ∧
    (((searchHandler st noSearchFail idStr).1 = .redirect ("/epochs/" ++ toString id)) ↔
      uint32Of id ≤ st.lastLayer / st.networkInfo.epochNumLayers) ∧
    (((searchHandler st noSearchFail idStr).1 = .notFound) ↔
      st.lastLayer < uint32Of id) := by
  have hres := searchHandler_default st noSearchFail idStr h42 h66 hobj
  rw [searchNumeric_parsed st idStr [] id hatoi] at hres
  have hdivle : st.lastLayer / st.networkInfo.epochNumLayers ≤ st.lastLayer :=
    Nat.div_le_self _ _
  by_cases h1 : st.lastLayer / st.networkInfo.epochNumLayers < uint32Of id
  · by_cases h2 : uint32Of id ≤ st.lastLayer
    · rw [hres, if_pos h1, if_pos h2]
      exact ⟨iff_of_true rfl ⟨h1, h2⟩,
        iff_of_false (fun hc => layersPath_ne_epochsPath (toString id) (toString id)
          (SearchResult.redirect.inj hc)) (by omega),
        iff_of_false (by simp) (by omega)⟩
    · rw [hres, if_pos h1, if_neg h2]
      exact ⟨iff_of_false (by simp) (by omega),
        iff_of_false (by simp) (by omega),
        iff_of_true rfl (by omega)⟩
  · rw [hres, if_neg h1]
    exact ⟨iff_of_false (fun hc => layersPath_ne_epochsPath (toString id) (toString id)
        ((SearchResult.redirect.inj hc).symm)) (by omega),
      iff_of_true rfl (by omega),
      iff_of_false (by simp) (by omega)⟩

/-- The uint32 image of an id already inside the unsigned 32 bit range is
the id itself. -/
theorem uint32Of_toNat (id : Int) (h0 : 0 ≤ id) (hlt : id < 4294967296) :
    uint32Of id = id.toNat := by
  unfold uint32Of
  rw [Int.emod_eq_of_lt h0 hlt]

/-- The first document matching an id after an UpdateOne for that id is
the first previously matching document with the set fields rewritten. -/
theorem find?_updateOneSmesher (ss : List Smesher) (id : String) (space : Nat)
    (coinbase : String) (atxcount : Nat) (timestamp : Nat) :
    (updateOneSmesher ss id space coinbase atxcount timestamp).find?
        (fun d => d.id == id) =
      (ss.find? (fun d => d.id == id)).map
        (fun d => { d with cSize := space, coinbase := coinbase,
                           atxcount := atxcount, timestamp := timestamp }) := by
  induction ss with
  | nil => rfl
  | cons d ds ih =>
    by_cases h : (d.id == id) = true
    · rw [updateOneSmesher, if_pos h]
      simp [List.find?_cons, h]
    · rw [updateOneSmesher, if_neg h]
      rw [Bool.not_eq_true] at h
      simp [List.find?_cons, h, ih]

/-- The restart loop performs one run per iteration, for every outcome
sequence. -/
theorem supervisorTrace_run_count (errs : Nat → Option String) (n : Nat) :
    ((supervisorTrace errs n).filter SupEvent.isRun).length = n := by
  induction n with
  | zero => rfl
  | succ k ih =>
    rw [supervisorTrace, List.filter_append, List.length_append, ih]
    cases h : errs k <;> simp [runStep, h, SupEvent.isRun]

/-- Every sleep in the restart loop trace has the fixed backoff length. -/
theorem supervisorTrace_sleep_const (errs : Nat → Option String) (n : Nat) :
    ∀ ev ∈ supervisorTrace errs n, ∀ k, ev = SupEvent.sleepSeconds k →
      k = collectorBackoffSeconds := by
  induction n with
  | zero => intro ev hev; simp [supervisorTrace] at hev
  | succ m ih =>
    intro ev hev k hk
    rw [supervisorTrace] at hev
    rcases List.mem_append.mp hev with h1 | h2
    · exact ih ev h1 k hk
    · cases h : errs m with
      | none =>
        rw [runStep, h] at h2
        simp at h2
        subst h2
        exact absurd hk (by simp)
      | some e =>
        rw [runStep, h] at h2
        simp at h2
        rcases h2 with rfl | rfl | rfl
        · exact absurd hk (by simp)
        · exact absurd hk (by simp)
        · injection hk with h3
          exact h3.symm

/-- C1 counterexample: with one smesher whose coinbase is the old
address, an UpdateSmesher whose smeshers update fails leaves the coinbase
index entry written and the smesher record stale, and repeating the same
call fails on the unique coinbase index without repairing the record; the
claim says the pair is written atomically and the retried pair succeeds. -/
theorem c1_counterexample :
    ((updateSmesher stC1 ⟨false, false, true⟩ "s1" "cb1" 7 5).1
        = .error "smeshers update error") ∧
    ((updateSmesher stC1 ⟨false, false, true⟩ "s1" "cb1" 7 5).2.coinbases
        = [⟨"cb1", "s1"⟩]) ∧
    (((updateSmesher stC1 ⟨false, false, true⟩ "s1" "cb1" 7 5).2.smeshers.find?
        (fun x => x.id == "s1")).map (fun x => x.coinbase) = some "old") ∧
    ((updateSmesher (updateSmesher stC1 ⟨false, false, true⟩ "s1" "cb1" 7 5).2
        noUpdateFail "s1" "cb1" 7 5).1
        = .error "error insert smesher into coinbases: duplicate key error") ∧
    (((updateSmesher (updateSmesher stC1 ⟨false, false, true⟩ "s1" "cb1" 7 5).2
        noUpdateFail "s1" "cb1" 7 5).2.smeshers.find?
        (fun x => x.id == "s1")).map (fun x => x.coinbase) = some "old") :=
  ⟨rfl, rfl, rfl, rfl, rfl⟩

/-- C1, amended: UpdateSmesher inserts the coinbase index entry first and
leaves the whole store untouched when that insert fails; when the insert
succeeds and the smesher update fails, the coinbase index entry stays
written while the smesher record does not change, and repeating the same
call errors on the unique coinbase index and changes nothing further. -/
theorem c1_update_pair_not_atomic (st : Storage) (sm cb : String) (space ts : Nat)
    (hnodup : st.coinbases.any (fun c => c.address == cb) = false) :
    ((updateSmesher st ⟨true, false, false⟩ sm cb space ts).2 = st) ∧
    ((updateSmesher st ⟨false, false, true⟩ sm cb space ts).2.coinbases
        = st.coinbases ++ [⟨cb, sm⟩]) ∧
    ((updateSmesher st ⟨false, false, true⟩ sm cb space ts).2.smeshers
        = st.smeshers) ∧
    (∃ e, (updateSmesher st ⟨false, false, true⟩ sm cb space ts).1 = .error e) ∧
    (∃ e, (updateSmesher (updateSmesher st ⟨false, false, true⟩ sm cb space ts).2
        noUpdateFail sm cb space ts).1 = .error e) ∧
    ((updateSmesher (updateSmesher st ⟨false, false, true⟩ sm cb space ts).2
        noUpdateFail sm cb space ts).2
      = (updateSmesher st ⟨false, false, true⟩ sm cb space ts).2) := by
  have hfirst : updateSmesher st ⟨false, false, true⟩ sm cb space ts
      = (.error "smeshers update error",
         { st with coinbases := st.coinbases ++ [⟨cb, sm⟩] }) := by
    simp [updateSmesher, insertCoinbaseDoc, hnodup]
  have hretry : updateSmesher ({ st with coinbases := st.coinbases ++ [⟨cb, sm⟩] })
        noUpdateFail sm cb space ts
      = (.error ("error insert smesher into coinbases: " ++ "duplicate key error"),
         { st with coinbases := st.coinbases ++ [⟨cb, sm⟩] }) := by
    simp [updateSmesher, noUpdateFail, insertCoinbaseDoc, List.any_append]
  rw [hfirst]
  exact ⟨rfl, rfl, rfl, ⟨_, rfl⟩, ⟨_, by rw [hretry]⟩, by rw [hretry]⟩

/-- Witness for C1 at a concrete store: the failed insert leaves the
store unchanged and the failed update leaves the smeshers unchanged. -/
theorem c1_witness :
    ((updateSmesher stC1 ⟨true, false, false⟩ "s1" "cb1" 7 5).2 = stC1) ∧
    ((updateSmesher stC1 ⟨false, false, true⟩ "s1" "cb1" 7 5).2.smeshers
        = stC1.smeshers) :=
  ⟨(c1_update_pair_not_atomic stC1 "s1" "cb1" 7 5 (by decide)).1,
   (c1_update_pair_not_atomic stC1 "s1" "cb1" 7 5 (by decide)).2.2.1⟩

/-- C2 counterexample: SaveSmesher twice with the same smesher id leaves
the store in the state of one application, but the second call fails with
a duplicate key error rather than succeeding; the claim says both calls
succeed. -/
theorem c2_counterexample :
    ((saveSmesher emptyStorage sm0).1 = .ok ()) ∧
    ((saveSmesher (saveSmesher emptyStorage sm0).2 sm0).1
        = .error "error save smesher: duplicate key error") ∧
    ((saveSmesher (saveSmesher emptyStorage sm0).2 sm0).2
        = (saveSmesher emptyStorage sm0).2) :=
  ⟨rfl, rfl, rfl⟩

/-- C2, amended: SaveSmesher is a plain insert guarded by the unique id
index, not an upsert: after a successful SaveSmesher, applying the same
call again leaves the store in the identical state but returns a
duplicate key error instead of succeeding. -/
theorem c2_save_twice_same_state_second_errors (st : Storage) (m : Smesher)
    (h : (saveSmesher st m).1 = .ok ()) :
    ((saveSmesher (saveSmesher st m).2 m).2 = (saveSmesher st m).2) ∧
    (∃ e, (saveSmesher (saveSmesher st m).2 m).1 = .error e) := by
  have hdup : st.smeshers.any (fun d => d.id == m.id) = false := by
    by_contra hc
    rw [Bool.not_eq_false] at hc
    simp [saveSmesher, insertSmesherDoc, hc] at h
  have h1 : (saveSmesher st m).2 = { st with smeshers := st.smeshers ++ [m] } := by
    simp [saveSmesher, insertSmesherDoc, hdup]
  have h2 : saveSmesher ({ st with smeshers := st.smeshers ++ [m] }) m
      = (.error ("error save smesher: " ++ "duplicate key error"),
         { st with smeshers := st.smeshers ++ [m] }) := by
    simp [saveSmesher, insertSmesherDoc, List.any_append]
  rw [h1, h2]
  exact ⟨rfl, ⟨_, rfl⟩⟩

/-- Witness for C2 at a concrete store: the repeated save leaves the
state of the first save unchanged. -/
theorem c2_witness :
    (saveSmesher (saveSmesher emptyStorage sm0).2 sm0).2
      = (saveSmesher emptyStorage sm0).2 :=
  (c2_save_twice_same_state_second_errors emptyStorage sm0 rfl).1

/-- C3 counterexample: with one activation referencing smesher s1, an
UpdateSmesher whose activations count query fails still returns success
and stores atxcount 0, while the number of activation records referencing
s1 is 1; the claim says every successful call stores the true count. -/
theorem c3_counterexample :
    ((updateSmesher stC3 ⟨false, true, false⟩ "s1" "cb" 1 1).1 = .ok ()) ∧
    (((updateSmesher stC3 ⟨false, true, false⟩ "s1" "cb" 1 1).2.smeshers.find?
        (fun x => x.id == "s1")).map (fun x => x.atxcount) = some 0) ∧
    (countActivationsFor stC3 "s1" = 1) :=
  ⟨rfl, rfl, rfl⟩

/-- C3, amended: after a successful UpdateSmesher in which the activation
count query also succeeds, the stored atxcount of the smesher record
equals the number of activation records referencing that id at the time
of the update, recomputed from the activations collection and never
incremented; when the count query fails its error is only logged and the
zero result is stored. -/
theorem c3_atxcount_recomputed_when_count_succeeds (st : Storage) (sm cb : String)
    (space ts : Nat) (d : Smesher)
    (hnodup : st.coinbases.any (fun c => c.address == cb) = false)
    (hfind : st.smeshers.find? (fun x => x.id == sm) = some d) :
    ((updateSmesher st noUpdateFail sm cb space ts).1 = .ok ()) ∧
    (((updateSmesher st noUpdateFail sm cb space ts).2.smeshers.find?
        (fun x => x.id == sm)).map (fun x => x.atxcount)
      = some (countActivationsFor st sm)) := by
  have hrun : updateSmesher st noUpdateFail sm cb space ts
      = (.ok (), { st with
          coinbases := st.coinbases ++ [⟨cb, sm⟩],
          smeshers :=
            updateOneSmesher st.smeshers sm space cb (countActivationsFor st sm) ts }) := by
    simp [updateSmesher, noUpdateFail, insertCoinbaseDoc, hnodup]
  rw [hrun]
  refine ⟨rfl, ?_⟩
  show ((updateOneSmesher st.smeshers sm space cb
      (countActivationsFor st sm) ts).find? (fun x => x.id == sm)).map
        (fun x => x.atxcount) = some (countActivationsFor st sm)
  rw [find?_updateOneSmesher, hfind]
  rfl

/-- Witness for C3 at a concrete store: the failure-free update stores
exactly the recomputed activation count. -/
theorem c3_witness :
    ((updateSmesher stC3 noUpdateFail "s1" "cb" 1 1).1 = .ok ()) ∧
    (((updateSmesher stC3 noUpdateFail "s1" "cb" 1 1).2.smeshers.find?
        (fun x => x.id == "s1")).map (fun x => x.atxcount)
      = some (countActivationsFor stC3 "s1")) :=
  c3_atxcount_recomputed_when_count_succeeds stC3 "s1" "cb" 1 1 smOld
    (by decide) rfl

/-- C4 counterexample: at watermark 100 with 10 layers per epoch, the id
string that parses to the integer minus one satisfies the premises of the
claim, and by the claim it should resolve to an epoch redirect (the value
is at most the epoch 10) and must not be NotFound (it does not exceed the
watermark); the handler returns NotFound because it compares the uint32
image 4294967295. -/
theorem c4_counterexample :
    (atoi "-1" = some (-1)) ∧
    (objectIDFromHex "-1" = none) ∧
    ((searchHandler st100 noSearchFail "-1").1 = .notFound) ∧
    ((-1 : Int) ≤ 100 / 10) ∧
    (¬ ((-1 : Int) > 100)) :=
  ⟨by decide, by decide, by decide, by decide, by decide⟩

/-- C4, amended: restricted to parsed decimal values inside the unsigned
32 bit range, the classification is exactly as claimed: a layer redirect
exactly when the id exceeds the epoch and is at most the watermark, an
epoch redirect with no existence probe exactly when the id is at most the
epoch, and NotFound exactly when the id exceeds the watermark; values
outside that range are first truncated modulo 2 to the 32. -/
theorem c4_numeric_classification (st : Storage) (idStr : String) (id : Int)
    (h42 : idStr.length ≠ 42) (h66 : idStr.length ≠ 66)
    (hobj : objectIDFromHex idStr = none) (hatoi : atoi idStr = some id)
    (h0 : 0 ≤ id) (hlt : id < 4294967296)
    (_hepl : 0 < st.networkInfo.epochNumLayers) :
    (((searchHandler st noSearchFail idStr).1 = .redirect ("/layers/" ++ toString id)) ↔
      (st.lastLayer / st.networkInfo.epochNumLayers < id.toNat ∧
       id.toNat ≤ st.lastLayer)) ∧
    (((searchHandler st noSearchFail idStr).1 = .redirect ("/epochs/" ++ toString id)) ↔
      id.toNat ≤ st.lastLayer / st.networkInfo.epochNumLayers) ∧
    (((searchHandler st noSearchFail idStr).1 = .notFound) ↔
      st.lastLayer < id.toNat) := by
  have h := numericTrichotomy st idStr id h42 h66 hobj hatoi
  rwa [uint32Of_toNat id h0 hlt] at h

/-- Witness for C4: at watermark 100 with 10 layers per epoch, the id 42
resolves to the layer redirect, by the amended classification. -/
theorem c4_witness :
    (searchHandler st100 noSearchFail "42").1
      = .redirect ("/layers/" ++ toString (42 : Int)) :=
  ((c4_numeric_classification st100 "42" 42 (by decide) (by decide) (by decide)
      (by decide) (by decide) (by decide) (by decide)).1).mpr (by decide)

/-- C5: for a 42 character id the handler probes accounts then blocks, in
that order, redirecting on the first hit and answering NotFound when both
probes find nothing; for a 66 character id it probes transactions, then
activations, then smeshers, in that order, redirecting on the first hit
and answering NotFound when none hits.  The recorded traces exhibit the
probe order and that probing stops at the first hit. -/
theorem c5_shape_probe_order (st : Storage) (idStr : String) :
    (idStr.length = 42 →
      ((0 < getAccountsCount st false idStr →
          searchHandler st noSearchFail idStr
            = (.redirect ("/address/" ++ idStr), [.countAccounts idStr])) ∧
       (getAccountsCount st false idStr = 0 → 0 < getBlocksCount st false idStr →
          searchHandler st noSearchFail idStr
            = (.redirect ("/blocks/" ++ idStr),
               [.countAccounts idStr, .countBlocks idStr])) ∧
       (getAccountsCount st false idStr = 0 → getBlocksCount st false idStr = 0 →
          searchHandler st noSearchFail idStr
            = (.notFound, [.countAccounts idStr, .countBlocks idStr])))) ∧
    (idStr.length = 66 →
      ((0 < getTransactionsCount st false idStr →
          searchHandler st noSearchFail idStr
            = (.redirect ("/txs/" ++ idStr), [.countTransactions idStr])) ∧
       (getTransactionsCount st false idStr = 0 →
          0 < getActivationsCount st false idStr →
          searchHandler st noSearchFail idStr
            = (.redirect ("/atxs/" ++ idStr),
               [.countTransactions idStr, .countActivations idStr])) ∧
       (getTransactionsCount st false idStr = 0 →
          getActivationsCount st false idStr = 0 →
          0 < getSmeshersCount st false idStr →
          searchHandler st noSearchFail idStr
            = (.redirect ("/smeshers/" ++ idStr),
               [.countTransactions idStr, .countActivations idStr,
                .countSmeshers idStr])) ∧
       (getTransactionsCount st false idStr = 0 →
          getActivationsCount st false idStr = 0 →
          getSmeshersCount st false idStr = 0 →
          searchHandler st noSearchFail idStr
            = (.notFound,
               [.countTransactions idStr, .countActivations idStr,
                .countSmeshers idStr])))) := by
  constructor
  · intro h42
    refine ⟨fun ha => ?_, fun ha hb => ?_, fun ha hb => ?_⟩
    · simp [searchHandler, h42, noSearchFail, ha]
    · simp [searchHandler, h42, noSearchFail, ha, hb]
    · simp [searchHandler, h42, noSearchFail, ha, hb]
  · intro h66
    refine ⟨fun ha => ?_, fun ha hb => ?_, fun ha hb hc => ?_, fun ha hb hc => ?_⟩
    · simp [searchHandler, h66, noSearchFail, ha]
    · simp [searchHandler, h66, noSearchFail, ha, hb]
    · simp [searchHandler, h66, noSearchFail, ha, hb, hc]
    · simp [searchHandler, h66, noSearchFail, ha, hb, hc]

/-- Witness for C5: a stored account resolves its 42 character address to
the address redirect after one probe, and a stored transaction resolves
its 66 character id to the transaction redirect after one probe. -/
theorem c5_witness :
    (searchHandler stC5 noSearchFail addr42
       = (.redirect ("/address/" ++ addr42), [.countAccounts addr42])) ∧
    (searchHandler stC5 noSearchFail hash66
       = (.redirect ("/txs/" ++ hash66), [.countTransactions hash66])) :=
  ⟨((c5_shape_probe_order stC5 addr42).1 (by decide)).1 (by decide),
   ((c5_shape_probe_order stC5 hash66).2 (by decide)).1 (by decide)⟩

/-- C6: for an id whose length is neither 42 nor 66, the handler first
tries the object id parse, and on success with an existing reward it
answers the reward redirect after the single rewards probe; otherwise,
when there is no object id parse with a stored reward and the decimal
parse fails, it answers NotFound. -/
theorem c6_objectid_then_decimal (st : Storage) (idStr : String)
    (h42 : idStr.length ≠ 42) (h66 : idStr.length ≠ 66) :
    (∀ oid, objectIDFromHex idStr = some oid → 0 < getRewardsCount st false oid →
       searchHandler st noSearchFail idStr
         = (.redirect ("/rewards/" ++ idStr), [.countRewards oid])) ∧
    (atoi idStr = none →
       (∀ oid, objectIDFromHex idStr = some oid → getRewardsCount st false oid = 0) →
       (searchHandler st noSearchFail idStr).1 = .notFound) := by
  constructor
  · intro oid hobj hrew
    simp [searchHandler, h42, h66, hobj, noSearchFail, hrew]
  · intro hatoi hno
    cases hobj : objectIDFromHex idStr with
    | none => simp [searchHandler, h42, h66, hobj, searchNumeric, hatoi]
    | some oid =>
      have hz := hno oid hobj
      simp [searchHandler, h42, h66, hobj, noSearchFail, hz, searchNumeric, hatoi]

/-- Witness for C6: a stored reward resolves its 24 character hex object
id to the reward redirect after the single rewards probe. -/
theorem c6_witness :
    searchHandler stReward noSearchFail oid24
      = (.redirect ("/rewards/" ++ oid24), [.countRewards oid24]) :=
  (c6_objectid_then_decimal stReward oid24 (by decide) (by decide)).1 oid24
    (by decide) (by decide)

/-- C7 counterexample: the smesher with the 66 character id is stored
(the failure free count is positive), yet with a store error on the
smeshers probe the handler answers NotFound, treating a transient store
error as nonexistence; the claim says a store error during a count probe
never makes the resolver answer as if the entity does not exist. -/
theorem c7_counterexample :
    (0 < getSmeshersCount stC7 false hash66c) ∧
    ((searchHandler stC7 smesherProbeFail hash66c).1 = .notFound) :=
  ⟨by decide, by decide⟩

/-- C7, amended: a store error during a count probe is logged by the
storage getter and returned as count 0, so the resolver treats the probed
entity as absent: on a 66 character id matching no transaction and no
activation, a failing smeshers probe yields NotFound regardless of what
the smeshers collection holds. -/
theorem c7_probe_error_reads_as_absent (st : Storage) (idStr : String)
    (f : SearchFail) (h66 : idStr.length = 66)
    (htx : getTransactionsCount st f.transactions idStr = 0)
    (hatx : getActivationsCount st f.activations idStr = 0)
    (hsm : f.smeshers = true) :
    (getSmeshersCount st f.smeshers idStr = 0) ∧
    ((searchHandler st f idStr).1 = .notFound) := by
  constructor
  · rw [hsm]; rfl
  · simp [searchHandler, h66, htx, hatx, hsm, getSmeshersCount]

/-- Witness for C7: at the concrete store holding only the smesher with
the 66 character id, a failing smeshers probe makes the handler answer
NotFound. -/
theorem c7_witness :
    (getSmeshersCount stC7 smesherProbeFail.smeshers hash66c = 0) ∧
    ((searchHandler stC7 smesherProbeFail hash66c).1 = .notFound) :=
  c7_probe_error_reads_as_absent stC7 hash66c smesherProbeFail (by decide)
    (by decide) (by decide) rfl

/-- C8: every store operation the search handler performs is a read-only
probe, and replaying the recorded operation trace against the store
leaves the store state identical, for every identifier and every probe
failure schedule. -/
theorem c8_search_readonly (st : Storage) (f : SearchFail) (idStr : String) :
    ((searchHandler st f idStr).2.all StoreOp.isRead = true) ∧
    ((searchHandler st f idStr).2.foldl effect st = st) := by
  have hall : (searchHandler st f idStr).2.all StoreOp.isRead = true := by
    unfold searchHandler searchNumeric
    repeat' split
    all_goals rfl
  exact ⟨hall, foldl_effect_of_reads _ st hall⟩

/-- C9: the collector restart loop never terminates (it performs one run
per iteration for every outcome sequence), after every run that returns
an error it prints the error and sleeps the fixed backoff before the next
iteration, and every sleep in the trace has the same fixed length
whatever the error was. -/
theorem c9_supervisor_restart_forever (errs : Nat → Option String) (n : Nat) :
    (((supervisorTrace errs n).filter SupEvent.isRun).length = n) ∧
    (∀ e, errs n = some e →
       supervisorTrace errs (n + 1)
         = supervisorTrace errs n
             ++ [.run n, .printErr e, .sleepSeconds collectorBackoffSeconds]) ∧
    (∀ ev ∈ supervisorTrace errs n, ∀ k, ev = .sleepSeconds k →
       k = collectorBackoffSeconds) := by
  refine ⟨supervisorTrace_run_count errs n, ?_, supervisorTrace_sleep_const errs n⟩
  intro e he
  rw [supervisorTrace, runStep, he]

/-- Witness for C9: under the all-error outcome sequence, two iterations
contain two runs and the third iteration appends the run, the error print
and the fixed backoff sleep. -/
theorem c9_witness :
    (((supervisorTrace constErrs 2).filter SupEvent.isRun).length = 2) ∧
    (supervisorTrace constErrs 3
       = supervisorTrace constErrs 2
           ++ [.run 2, .printErr "node error", .sleepSeconds collectorBackoffSeconds]) :=
  ⟨(c9_supervisor_restart_forever constErrs 2).1,
   (c9_supervisor_restart_forever constErrs 2).2.1 "node error" rfl⟩

/-- C10: the decimal classification truncates the parsed value to uint32:
the id 4294967296 compares as 0 and resolves to the epoch redirect that
echoes the original parsed int, the id minus one compares as 4294967295
and is NotFound under every watermark below that value, and in general
each outcome of the numeric classification is decided by the value modulo
2 to the 32 while the redirect echoes the parsed int itself. -/
theorem c10_uint32_truncation (st : Storage)
    (_hepl : 0 < st.networkInfo.epochNumLayers) :
    ((searchHandler st noSearchFail "4294967296").1
        = .redirect "/epochs/4294967296") ∧
    (st.lastLayer < 4294967295 →
       (searchHandler st noSearchFail "-1").1 = .notFound) ∧
    (∀ idStr id, idStr.length ≠ 42 → idStr.length ≠ 66 →
       objectIDFromHex idStr = none → atoi idStr = some id →
       ((((searchHandler st noSearchFail idStr).1
            = .redirect ("/layers/" ++ toString id)) ↔
          (st.lastLayer / st.networkInfo.epochNumLayers < uint32Of id ∧
           uint32Of id ≤ st.lastLayer)) ∧
        (((searchHandler st noSearchFail idStr).1
            = .redirect ("/epochs/" ++ toString id)) ↔
          uint32Of id ≤ st.lastLayer / st.networkInfo.epochNumLayers) ∧
        (((searchHandler st noSearchFail idStr).1 = .notFound) ↔
          st.lastLayer < uint32Of id))) := by
  refine ⟨?_, ?_, fun idStr id h42 h66 hobj hatoi =>
    numericTrichotomy st idStr id h42 h66 hobj hatoi⟩
  · have h := (numericTrichotomy st "4294967296" 4294967296 (by decide) (by decide)
        (by decide) (by decide)).2.1
    have hu : uint32Of 4294967296 = 0 := by decide
    rw [hu] at h
    have hres := h.mpr (Nat.zero_le _)
    have hstr : ("/epochs/" ++ toString (4294967296 : Int)) = "/epochs/4294967296" := by
      decide
    rw [hstr] at hres
    exact hres
  · intro hwm
    have h := (numericTrichotomy st "-1" (-1) (by decide) (by decide) (by decide)
        (by decide)).2.2
    have hu : uint32Of (-1) = 4294967295 := by decide
    rw [hu] at h
    exact h.mpr (by omega)

/-- Witness for C10 at watermark 100 with 10 layers per epoch: the value
beyond the uint32 range resolves to the epoch redirect echoing the parsed
int, and the negative value resolves to NotFound. -/
theorem c10_witness :
    ((searchHandler st100 noSearchFail "4294967296").1
        = .redirect "/epochs/4294967296") ∧
    ((searchHandler st100 noSearchFail "-1").1 = .notFound) :=
  ⟨(c10_uint32_truncation st100 (by decide)).1,
   (c10_uint32_truncation st100 (by decide)).2.1 (by decide)⟩

end ExplorerBackend
